import Mathlib

/-!
# Verification of the rod `Page` engine (`page.go`)

A shallow embedding of the page-session execution and element-resolution
engine of the rod browser-automation library.  Remote transport calls are
modelled by passing their outcomes in explicitly (as `Except` values or lists
of per-attempt outcomes); the retry loops driven by `kit.Retry`/`kit.Sleeper`
are modelled by walking the finite list of attempt outcomes, where exhausting
the list stands for the sleeper/context giving up (`kit.Retry` returning the
context's error).
-/

set_option autoImplicit false

namespace Rod

/-- JSON values as delivered by the devtools protocol transport
(`kit.JSONResult` / gjson results in the Go source). -/
inductive JSON where
  | null : JSON
  | bool (b : Bool) : JSON
  | num (n : Int) : JSON
  | str (s : String) : JSON
  | arr (elems : List JSON) : JSON
  | obj (fields : List (String × JSON)) : JSON

/-- One step of gjson `Get`: field lookup on an object (first binding wins);
anything that is not an object has no fields. -/
def JSON.get1 : JSON → String → Option JSON
  | .obj fs, k => fs.lookup k
  | _, _ => none

/-- gjson dotted-path lookup, e.g. `Get("exceptionDetails.exception.description")`. -/
def JSON.getp : JSON → List String → Option JSON
  | j, [] => some j
  | j, k :: ks =>
    match j.get1 k with
    | some v => v.getp ks
    | none => none

/-- gjson `Get` applied to a possibly non-existing result (gjson returns a
zero `Result` whose own `Get` yields a non-existing result). -/
def oget : Option JSON → String → Option JSON
  | some j, k => j.get1 k
  | none, _ => none

@[simp] lemma oget_some (j : JSON) (k : String) : oget (some j) k = j.get1 k := rfl

@[simp] lemma oget_none (k : String) : oget none k = none := rfl

/-- gjson `.String()`: the content of a string result, `""` for a missing or
non-string result (the only cases exercised by `page.go`). -/
def jstr : Option JSON → String
  | some (.str s) => s
  | _ => ""

/-- gjson `.Int()`: the content of an integer result, `0` otherwise (used for
`executionContextId`). -/
def jint : Option JSON → Int
  | some (.num n) => n
  | _ => 0

/-- gjson `.Array()`: the elements of an array result, `[]` otherwise. -/
def jarr : Option JSON → List JSON
  | some (.arr l) => l
  | _ => []

/-- `cdp.Error`: a structured protocol error carrying a numeric code. -/
structure CdpError where
  code : Int
  message : String
deriving DecidableEq

/-- The error values surfaced by the page operations of `page.go`. -/
inductive RodError where
  /-- the context was cancelled / the sleeper gave up (`kit.Retry` returned
  the context's error). -/
  | cancelled : RodError
  /-- a transport (`cdp.Error`) failure, propagated unchanged. -/
  | cdp (e : CdpError) : RodError
  /-- `&Error{nil, ErrExpectElement, val.Raw}`. -/
  | expectElement (raw : Option JSON) : RodError
  /-- `&Error{nil, ErrExpectElements, val}`. -/
  | expectElements (raw : Option JSON) : RodError
  /-- `&Error{nil, description, res}` produced by `EvalE` on `exceptionDetails`. -/
  | evalException (desc : String) (payload : JSON) : RodError
  /-- an out-of-band HTTP failure during download replay (`kit.Req`). -/
  | http (msg : String) : RodError

/-- An element handle: `Element{page, ctx, ObjectID}` (only the remote object
reference matters for the resolution logic). -/
structure Element where
  ObjectID : String
deriving DecidableEq

/-- `EvalE` (src/page.go:435-456), given the outcome of the inner
`eval`/`evalThis` transport call: a transport error is propagated unchanged;
a present `exceptionDetails` field fails the call with the exception
description and the raw payload; otherwise, in value mode the result is
unwrapped to the inner `result.value` payload, and in reference mode the raw
envelope is returned. -/
def EvalE (byValue : Bool) (inner : Except RodError JSON) : Except RodError (Option JSON) :=
  match inner with
  | .error e => .error e
  | .ok res =>
    if (res.getp ["exceptionDetails"]).isSome then
      .error (.evalException (jstr (res.getp ["exceptionDetails", "exception", "description"])) res)
    else if byValue then .ok (res.getp ["result", "value"])
    else .ok (some res)

/-- The retry-continuation test of `ElementByJSE`: the evaluated value is an
object of subtype `"null"` (`val.Get("type").String() == "object" &&
val.Get("subtype").String() == "null"`). -/
def isNullObj (val : Option JSON) : Bool :=
  jstr (oget val "type") == "object" && jstr (oget val "subtype") == "null"

/-- The `kit.Retry` loop of `ElementByJSE` (src/page.go:166-179), walking the
outcomes of the successive inner evaluation calls.  Each tick runs
`EvalE false`; an error stops the loop and is returned; a `"null"`-subtype
object result continues with the next tick; any other result stops the loop
with `val = res.Get("result")`.  Exhausting the outcome list models the
sleeper/context giving up. -/
def elementLoop : List (Except RodError JSON) → Except RodError (Option JSON)
  | [] => .error RodError.cancelled
  | i :: rest =>
    match EvalE false i with
    | .error e => .error e
    | .ok res =>
      let val := oget res "result"
      if isNullObj val then elementLoop rest
      else .ok val

/-- `ElementByJSE` (src/page.go:163-193): run the retry loop; on loop error
return it; then the terminal value must have subtype `"node"`, else fail with
`ErrExpectElement` carrying the raw value; on success build an `Element`
whose `ObjectID` is the value's `objectId`. -/
def ElementByJSE (evals : List (Except RodError JSON)) : Except RodError Element :=
  match elementLoop evals with
  | .error e => .error e
  | .ok val =>
    if jstr (oget val "subtype") ≠ "node" then .error (.expectElement val)
    else .ok ⟨jstr (oget val "objectId")⟩

/-- Does the first evaluation outcome make the `ElementByJSE` loop run another
tick?  Exactly when the evaluation succeeded and produced a `"null"`-subtype
object result. -/
def continuesLoop (i : Except RodError JSON) : Bool :=
  match EvalE false i with
  | .error _ => false
  | .ok res => isNullObj (oget res "result")

/-- A raw evaluation envelope whose `result` is the JS value `null`
(an object of subtype `"null"`). -/
def nullRes : JSON :=
  .obj [("result", .obj [("type", .str "object"), ("subtype", .str "null")])]

/-- A raw evaluation envelope whose `result` is a DOM node reference. -/
def nodeRes : JSON :=
  .obj [("result", .obj [("type", .str "object"), ("subtype", .str "node"),
    ("objectId", .str "oid1")])]

/-- A raw evaluation envelope whose `result` is the number `42`
(neither `"null"` nor `"node"` subtype). -/
def numRes : JSON :=
  .obj [("result", .obj [("type", .str "number"), ("value", .num 42)])]

/-- A raw evaluation envelope carrying `exceptionDetails`. -/
def excRes : JSON :=
  .obj [("exceptionDetails", .obj [("exception", .obj [("description", .str "boom")])]),
    ("result", .obj [("type", .str "object"), ("subtype", .str "error")])]

/-- C1: in `ElementByJSE`, an evaluation result that is an object of subtype
`"null"` makes the retry loop continue; if the loop terminates with a value of
subtype `"node"` the call returns an `Element` whose `ObjectID` is that
value's `objectId`; if it terminates with a value whose subtype is not
`"node"` the call fails with `ErrExpectElement` carrying the raw value. -/
theorem c1_elementByJSE_resolution :
    (∀ (res : JSON) (rest : List (Except RodError JSON)),
      (res.getp ["exceptionDetails"]).isSome = false →
      isNullObj (oget (some res) "result") = true →
      ElementByJSE (.ok res :: rest) = ElementByJSE rest)
  ∧ (∀ (evals : List (Except RodError JSON)) (val : Option JSON),
      elementLoop evals = .ok val →
      jstr (oget val "subtype") = "node" →
      ElementByJSE evals = .ok ⟨jstr (oget val "objectId")⟩)
  ∧ (∀ (evals : List (Except RodError JSON)) (val : Option JSON),
      elementLoop evals = .ok val →
      jstr (oget val "subtype") ≠ "node" →
      ElementByJSE evals = .error (.expectElement val)) := by
  refine ⟨?_, ?_, ?_⟩
  · intro res rest hexc hnull
    have hnull' : isNullObj (res.get1 "result") = true := by simpa using hnull
    simp [ElementByJSE, elementLoop, EvalE, hexc, hnull']
  · intro evals val hloop hnode
    simp [ElementByJSE, hloop, hnode]
  · intro evals val hloop hnode
    simp [ElementByJSE, hloop, hnode]

/-- Witness for C1 at concrete inputs: a null result retries, a node result
resolves to its object id, a number result fails with `ErrExpectElement`. -/
theorem c1_elementByJSE_resolution_witness :
    ElementByJSE [.ok nullRes, .ok nodeRes] = ElementByJSE [.ok nodeRes]
  ∧ ElementByJSE [.ok nodeRes] = .ok ⟨"oid1"⟩
  ∧ ElementByJSE [.ok numRes] =
      .error (.expectElement (some (.obj [("type", .str "number"), ("value", .num 42)]))) :=
  ⟨c1_elementByJSE_resolution.1 nullRes [.ok nodeRes] rfl rfl,
   c1_elementByJSE_resolution.2.1 [.ok nodeRes]
     (some (.obj [("type", .str "object"), ("subtype", .str "node"),
       ("objectId", .str "oid1")])) rfl rfl,
   c1_elementByJSE_resolution.2.2 [.ok numRes]
     (some (.obj [("type", .str "number"), ("value", .num 42)])) rfl (by decide)⟩

/-- C10: in `ElementByJSE`, an error from the underlying evaluation aborts the
retry loop at once and is returned unchanged; when the first outcome is not a
successful `"null"`-subtype object result, the remaining ticks are never
consulted (only a null result retries). -/
theorem c10_elementByJSE_error_aborts :
    (∀ (e : RodError) (rest : List (Except RodError JSON)),
      ElementByJSE (.error e :: rest) = .error e)
  ∧ (∀ (i : Except RodError JSON) (rest rest' : List (Except RodError JSON)),
      continuesLoop i = false →
      ElementByJSE (i :: rest) = ElementByJSE (i :: rest')) := by
  constructor
  · intro e rest
    simp [ElementByJSE, elementLoop, EvalE]
  · intro i rest rest' h
    cases hE : EvalE false i with
    | error e => simp [ElementByJSE, elementLoop, hE]
    | ok res =>
      have hn : isNullObj (oget res "result") = false := by
        simpa [continuesLoop, hE] using h
      simp [ElementByJSE, elementLoop, hE, hn]

/-- Witness for C10 at concrete inputs: a transport error is returned
unchanged, and a non-null first result makes the tail irrelevant. -/
theorem c10_elementByJSE_error_aborts_witness :
    ElementByJSE [.error (.cdp ⟨-5, "x"⟩), .ok nodeRes] = .error (.cdp ⟨-5, "x"⟩)
  ∧ ElementByJSE [.ok numRes] = ElementByJSE [.ok numRes, .ok nodeRes] :=
  ⟨c10_elementByJSE_error_aborts.1 (.cdp ⟨-5, "x"⟩) [.ok nodeRes],
   c10_elementByJSE_error_aborts.2 (.ok numRes) [] [.ok nodeRes] rfl⟩

/-- C5: if the raw protocol result of an evaluation carries an
`exceptionDetails` field, `EvalE` fails with an error carrying the exception
description and the raw payload, and never returns a successful value. -/
theorem c5_evalE_exception (byValue : Bool) (res : JSON)
    (h : (res.getp ["exceptionDetails"]).isSome = true) :
    EvalE byValue (.ok res) =
      .error (.evalException
        (jstr (res.getp ["exceptionDetails", "exception", "description"])) res)
  ∧ ∀ v, EvalE byValue (.ok res) ≠ .ok v := by
  have heq : EvalE byValue (.ok res) =
      .error (.evalException
        (jstr (res.getp ["exceptionDetails", "exception", "description"])) res) := by
    simp [EvalE, h]
  exact ⟨heq, fun v hv => by simp [heq] at hv⟩

/-- Witness for C5 at a concrete exceptional result. -/
theorem c5_evalE_exception_witness :
    EvalE true (.ok excRes) = .error (.evalException "boom" excRes)
  ∧ ∀ v, EvalE true (.ok excRes) ≠ .ok v :=
  c5_evalE_exception true excRes rfl

/-- The property names `ElementsByJSE` skips when enumerating the remote
array's own properties (`name == "__proto__" || name == "length"`). -/
def skipProp (name : String) : Bool :=
  name == "__proto__" || name == "length"

/-- The enumeration loop of `ElementsByJSE` (src/page.go:241-257) over the
property descriptors returned by `Runtime.getProperties`: skipped names are
passed over; a value that is not of subtype `"node"` aborts the whole call
with `ErrExpectElements`; otherwise an `Element` per property is accumulated
in enumeration order. -/
def elemsFromProps : List JSON → Except RodError (List Element)
  | [] => .ok []
  | o :: rest =>
    if skipProp (jstr (o.get1 "name")) then elemsFromProps rest
    else
      let val := o.get1 "value"
      if jstr (oget val "subtype") ≠ "node" then .error (.expectElements val)
      else
        match elemsFromProps rest with
        | .error e => .error e
        | .ok l => .ok (⟨jstr (oget val "objectId")⟩ :: l)

/-- `ElementsByJSE` (src/page.go:215-260), given the outcome of the inner
evaluation and of the `Runtime.getProperties` call: the evaluation result
must be of subtype `"array"`, else `ErrExpectElements`; an empty `objectId`
short-circuits to the empty list; otherwise the property descriptors of the
`getProperties` result are enumerated by `elemsFromProps`. -/
def ElementsByJSE (evalOut : Except RodError JSON)
    (getPropsOut : Except RodError JSON) : Except RodError (List Element) :=
  match EvalE false evalOut with
  | .error e => .error e
  | .ok res =>
    let val := oget res "result"
    if jstr (oget val "subtype") ≠ "array" then .error (.expectElements val)
    else if jstr (oget val "objectId") = "" then .ok []
    else
      match getPropsOut with
      | .error e => .error e
      | .ok list => elemsFromProps (jarr (list.get1 "result"))

lemma elemsFromProps_allNode (props : List JSON)
    (h : ∀ o ∈ props, skipProp (jstr (o.get1 "name")) = false →
        jstr (oget (o.get1 "value") "subtype") = "node") :
    elemsFromProps props =
      .ok ((props.filter (fun o => !skipProp (jstr (o.get1 "name")))).map
        (fun o => ⟨jstr (oget (o.get1 "value") "objectId")⟩)) := by
  induction props with
  | nil => rfl
  | cons o rest ih =>
    have ih' := ih (fun o' ho' hs => h o' (List.mem_cons_of_mem _ ho') hs)
    by_cases hs : skipProp (jstr (o.get1 "name")) = true
    · simp [elemsFromProps, hs, ih']
    · have hs' : skipProp (jstr (o.get1 "name")) = false := by simpa using hs
      have hn := h o (List.mem_cons_self _ _) hs'
      simp [elemsFromProps, hs', hn, ih']

lemma elemsFromProps_badProp (props : List JSON)
    (h : ∃ o ∈ props, skipProp (jstr (o.get1 "name")) = false ∧
        jstr (oget (o.get1 "value") "subtype") ≠ "node") :
    ∃ v, elemsFromProps props = .error (.expectElements v) := by
  induction props with
  | nil => simp at h
  | cons o rest ih =>
    obtain ⟨o', ho', hskip, hbad⟩ := h
    by_cases hs : skipProp (jstr (o.get1 "name")) = true
    · have hmem : o' ∈ rest := by
        rcases List.mem_cons.mp ho' with heq | hmem
        · subst heq; rw [hs] at hskip; cases hskip
        · exact hmem
      obtain ⟨v, hv⟩ := ih ⟨o', hmem, hskip, hbad⟩
      exact ⟨v, by simp [elemsFromProps, hs, hv]⟩
    · have hs' : skipProp (jstr (o.get1 "name")) = false := by simpa using hs
      by_cases hb : jstr (oget (o.get1 "value") "subtype") = "node"
      · have hmem : o' ∈ rest := by
          rcases List.mem_cons.mp ho' with heq | hmem
          · subst heq; exact absurd hb hbad
          · exact hmem
        obtain ⟨v, hv⟩ := ih ⟨o', hmem, hskip, hbad⟩
        exact ⟨v, by simp [elemsFromProps, hs', hb, hv]⟩
      · exact ⟨o.get1 "value", by simp [elemsFromProps, hs', hb]⟩

/-- C2: in `ElementsByJSE`, when the evaluation result is of subtype
`"array"` and every enumerated own property other than `"__proto__"` and
`"length"` has a value of subtype `"node"`, the returned list is exactly one
`Element` per such property in enumeration order (so its length equals their
number); if any such property's value is not of subtype `"node"`, the call
fails with `ErrExpectElements` and returns no partial list; if the result's
subtype is not `"array"`, the call fails with `ErrExpectElements`. -/
theorem c2_elementsByJSE_enumeration :
    (∀ (raw list : JSON),
      (raw.getp ["exceptionDetails"]).isSome = false →
      jstr (oget (raw.get1 "result") "subtype") = "array" →
      jstr (oget (raw.get1 "result") "objectId") ≠ "" →
      (∀ o ∈ jarr (list.get1 "result"),
        skipProp (jstr (o.get1 "name")) = false →
        jstr (oget (o.get1 "value") "subtype") = "node") →
      ElementsByJSE (.ok raw) (.ok list) =
        .ok (((jarr (list.get1 "result")).filter
            (fun o => !skipProp (jstr (o.get1 "name")))).map
          (fun o => ⟨jstr (oget (o.get1 "value") "objectId")⟩))
      ∧ ∀ l, ElementsByJSE (.ok raw) (.ok list) = .ok l →
          l.length = ((jarr (list.get1 "result")).filter
            (fun o => !skipProp (jstr (o.get1 "name")))).length)
  ∧ (∀ (raw list : JSON),
      (raw.getp ["exceptionDetails"]).isSome = false →
      jstr (oget (raw.get1 "result") "subtype") = "array" →
      jstr (oget (raw.get1 "result") "objectId") ≠ "" →
      (∃ o ∈ jarr (list.get1 "result"),
        skipProp (jstr (o.get1 "name")) = false ∧
        jstr (oget (o.get1 "value") "subtype") ≠ "node") →
      ∃ v, ElementsByJSE (.ok raw) (.ok list) = .error (.expectElements v))
  ∧ (∀ (raw : JSON) (getPropsOut : Except RodError JSON),
      (raw.getp ["exceptionDetails"]).isSome = false →
      jstr (oget (raw.get1 "result") "subtype") ≠ "array" →
      ElementsByJSE (.ok raw) getPropsOut =
        .error (.expectElements (oget (some raw) "result"))) := by
  refine ⟨?_, ?_, ?_⟩
  · intro raw list hexc harr hid hall
    have heq := elemsFromProps_allNode (jarr (list.get1 "result")) hall
    have hmain : ElementsByJSE (.ok raw) (.ok list) =
        .ok (((jarr (list.get1 "result")).filter
            (fun o => !skipProp (jstr (o.get1 "name")))).map
          (fun o => ⟨jstr (oget (o.get1 "value") "objectId")⟩)) := by
      simp [ElementsByJSE, EvalE, hexc, harr, hid, heq]
    refine ⟨hmain, fun l hl => ?_⟩
    rw [hmain] at hl
    cases hl
    simp
  · intro raw list hexc harr hid hbad
    obtain ⟨v, hv⟩ := elemsFromProps_badProp (jarr (list.get1 "result")) hbad
    exact ⟨v, by simp [ElementsByJSE, EvalE, hexc, harr, hid, hv]⟩
  · intro raw getPropsOut hexc harr
    simp [ElementsByJSE, EvalE, hexc, harr]

/-- A raw evaluation envelope whose `result` is an array reference. -/
def arrRes : JSON :=
  .obj [("result", .obj [("type", .str "object"), ("subtype", .str "array"),
    ("objectId", .str "arr1")])]

/-- A `Runtime.getProperties` result: two node-valued index properties plus
the synthetic `length` and `__proto__` entries. -/
def propsRes : JSON :=
  .obj [("result", .arr [
    .obj [("name", .str "0"), ("value", .obj [("type", .str "object"),
      ("subtype", .str "node"), ("objectId", .str "n0")])],
    .obj [("name", .str "1"), ("value", .obj [("type", .str "object"),
      ("subtype", .str "node"), ("objectId", .str "n1")])],
    .obj [("name", .str "length"), ("value", .obj [("type", .str "number"),
      ("value", .num 2)])],
    .obj [("name", .str "__proto__"), ("value", .obj [("type", .str "object"),
      ("subtype", .str "array")])]])]

/-- A `Runtime.getProperties` result with a non-node index property. -/
def badPropsRes : JSON :=
  .obj [("result", .arr [
    .obj [("name", .str "0"), ("value", .obj [("type", .str "number"),
      ("value", .num 7)])]])]

/-- Witness for C2 at concrete inputs: two node properties (plus skipped
`length`/`__proto__`) resolve to two elements in order; a non-node property
fails the whole call; a non-array result fails the call. -/
theorem c2_elementsByJSE_enumeration_witness :
    ElementsByJSE (.ok arrRes) (.ok propsRes) = .ok [⟨"n0"⟩, ⟨"n1"⟩]
  ∧ (∃ v, ElementsByJSE (.ok arrRes) (.ok badPropsRes) = .error (.expectElements v))
  ∧ ElementsByJSE (.ok numRes) (.ok propsRes) =
      .error (.expectElements (some (.obj [("type", .str "number"), ("value", .num 42)]))) :=
  ⟨(c2_elementsByJSE_enumeration.1 arrRes propsRes rfl rfl (by decide) (by decide)).1,
   c2_elementsByJSE_enumeration.2.1 arrRes badPropsRes rfl rfl (by decide) (by decide),
   c2_elementsByJSE_enumeration.2.2 numRes (.ok propsRes) rfl (by decide)⟩

/-- The `Page` value of `page.go` (the `browser`, device and lock fields play
no role in the verified logic; the context is modelled by an identifier and
the stored cancel function by its identifier). -/
structure Page where
  ctx : Nat
  TargetID : String
  SessionID : String
  ContextID : Int
  FrameID : String
  timeoutCancel : Option Nat
deriving DecidableEq

/-- `isIframe` (src/page.go:561-563): a page is an iframe page iff its
`FrameID` is non-empty. -/
def Page.isIframe (p : Page) : Bool :=
  p.FrameID != ""

/-- The `Runtime.evaluate` parameter object built by `eval`
(src/page.go:458-468): `expression`, `awaitPromise`, `returnByValue`, and —
only on the iframe path — `contextId`. -/
structure Request where
  expression : String
  awaitPromise : Bool
  returnByValue : Bool
  contextId : Option Int
deriving DecidableEq

/-- Modelled from the spec: `SprintFnApply` is defined outside the analysed
source file; per the spec it "builds an expression string by applying the
given function-literal source to a serialized argument list".  Arguments are
taken already serialized. -/
def SprintFnApply (js : String) (args : List String) : String :=
  "(" ++ js ++ ")(" ++ String.intercalate ", " args ++ ")"

/-- `initIsolatedWorld` (src/page.go:533-543), given the outcome of the
`Page.createIsolatedWorld` call: on error the error is returned and the
page's `ContextID` is left unchanged; on success the new `ContextID` is the
returned `executionContextId`. -/
def initIsolatedWorld (out : Except CdpError JSON) : Except CdpError Int :=
  match out with
  | .error e => .error e
  | .ok frame => .ok (jint (frame.get1 "executionContextId"))

/-- One retry tick of `evalIframe`: the outcomes of the `Runtime.evaluate`
call and of the `Page.createIsolatedWorld` call that would be issued on a
stale-context error at this tick. -/
structure IframeAttempt where
  evalOut : Except CdpError JSON
  initOut : Except CdpError JSON

/-- `evalIframe` (src/page.go:470-486): a `kit.Retry` loop threading the
page's `ContextID`.  Each tick sets `params["contextId"]` to the current
`ContextID` and evaluates; an error with code `-32000` triggers
`initIsolatedWorld` — whose own error is discarded (`_ =
p.initIsolatedWorld()`), leaving `ContextID` unchanged — and another tick;
any other error, or success, ends the loop.  The second component is the
trace of `contextId` values used by the issued `Runtime.evaluate` calls;
exhausting the attempt list models the sleeper/context giving up. -/
def evalIframeGo (ctxId : Int) : List IframeAttempt → Except RodError JSON × List Int
  | [] => (.error .cancelled, [])
  | a :: rest =>
    match a.evalOut with
    | .ok v => (.ok v, [ctxId])
    | .error e =>
      if e.code = -32000 then
        match initIsolatedWorld a.initOut with
        | .ok newCtx =>
          let r := evalIframeGo newCtx rest
          (r.1, ctxId :: r.2)
        | .error _ =>
          let r := evalIframeGo ctxId rest
          (r.1, ctxId :: r.2)
      else (.error (.cdp e), [ctxId])

/-- `eval` (src/page.go:458-468): builds the `Runtime.evaluate` params from
the function-literal source and serialized arguments with
`awaitPromise = true` and the caller's `returnByValue`; a non-iframe page
sends them directly, an iframe page goes through the `evalIframe` retry loop,
which stamps the page's current `ContextID` into the params of every issued
call.  Returns the outcome and the trace of issued requests. -/
def evalGo (p : Page) (byValue : Bool) (js : String) (args : List String)
    (atts : List IframeAttempt) (directOut : Except CdpError JSON) :
    Except RodError JSON × List Request :=
  let params : Request :=
    { expression := SprintFnApply js args
      awaitPromise := true
      returnByValue := byValue
      contextId := none }
  if p.isIframe then
    let r := evalIframeGo p.ContextID atts
    (r.1, r.2.map fun cid => { params with contextId := some cid })
  else
    match directOut with
    | .ok v => (.ok v, [params])
    | .error e => (.error (.cdp e), [params])

lemma evalIframeGo_trace_head (ctxId : Int) (a : IframeAttempt)
    (rest : List IframeAttempt) :
    (evalIframeGo ctxId (a :: rest)).2.head? = some ctxId := by
  cases hE : a.evalOut with
  | ok v => simp [evalIframeGo, hE]
  | error e =>
    by_cases hc : e.code = -32000
    · cases hI : initIsolatedWorld a.initOut with
      | ok n => simp [evalIframeGo, hE, hc, hI]
      | error e2 => simp [evalIframeGo, hE, hc, hI]
    · simp [evalIframeGo, hE, hc]

/-- C3 counterexample: an iframe evaluation whose stale-context recovery
fails (`Page.createIsolatedWorld` returns the error `⟨7, "boom"⟩`) does not
surface that failure — the loop silently retries with the unchanged context
id and returns the next attempt's success, so the recovery failure is never
seen by the caller. -/
theorem c3_initFailure_not_surfaced :
    evalIframeGo 1
      [⟨.error ⟨-32000, "Cannot find context with specified id"⟩, .error ⟨7, "boom"⟩⟩,
       ⟨.ok (.str "v"), .ok .null⟩] = (.ok (.str "v"), [1, 1])
  ∧ (evalIframeGo 1
      [⟨.error ⟨-32000, "Cannot find context with specified id"⟩, .error ⟨7, "boom"⟩⟩,
       ⟨.ok (.str "v"), .ok .null⟩]).1 ≠ .error (.cdp ⟨7, "boom"⟩) := by
  refine ⟨rfl, ?_⟩
  intro h
  rw [show (evalIframeGo 1
      [⟨.error ⟨-32000, "Cannot find context with specified id"⟩, .error ⟨7, "boom"⟩⟩,
       ⟨.ok (.str "v"), .ok .null⟩]).1 = .ok (.str "v") from rfl] at h
  exact Except.noConfusion h

/-- C3 (amended): in `evalIframe`, a transport error with code `-32000`
triggers an isolated-world recreation and another tick — with the new context
id if the recreation succeeded; any other transport error is surfaced
immediately without retry; a failure of the recreation itself is discarded
(`_ = p.initIsolatedWorld()`) and the loop retries with the unchanged
context id, so that failure is never surfaced. -/
theorem c3_evalIframe_staleContext :
    (∀ (ctxId : Int) (a : IframeAttempt) (rest : List IframeAttempt)
        (e : CdpError) (newCtx : Int),
      a.evalOut = .error e → e.code = -32000 →
      initIsolatedWorld a.initOut = .ok newCtx →
      evalIframeGo ctxId (a :: rest) =
        ((evalIframeGo newCtx rest).1, ctxId :: (evalIframeGo newCtx rest).2))
  ∧ (∀ (ctxId : Int) (a : IframeAttempt) (rest : List IframeAttempt)
        (e : CdpError),
      a.evalOut = .error e → e.code ≠ -32000 →
      evalIframeGo ctxId (a :: rest) = (.error (.cdp e), [ctxId]))
  ∧ (∀ (ctxId : Int) (a : IframeAttempt) (rest : List IframeAttempt)
        (e e2 : CdpError),
      a.evalOut = .error e → e.code = -32000 →
      initIsolatedWorld a.initOut = .error e2 →
      evalIframeGo ctxId (a :: rest) =
        ((evalIframeGo ctxId rest).1, ctxId :: (evalIframeGo ctxId rest).2)) := by
  refine ⟨?_, ?_, ?_⟩
  · intro ctxId a rest e newCtx hE hc hI
    simp [evalIframeGo, hE, hc, hI]
  · intro ctxId a rest e hE hc
    simp [evalIframeGo, hE, hc]
  · intro ctxId a rest e e2 hE hc hI
    simp [evalIframeGo, hE, hc, hI]

/-- Witness for the amended C3 at concrete inputs: a stale-context error with
successful recreation retries under the new context id `9`; a non-stale error
is returned at once; a failed recreation retries under the old context id. -/
theorem c3_evalIframe_staleContext_witness :
    evalIframeGo 1 [⟨.error ⟨-32000, "stale"⟩, .ok (.obj [("executionContextId", .num 9)])⟩,
      ⟨.ok (.str "v"), .ok .null⟩] = (.ok (.str "v"), [1, 9])
  ∧ evalIframeGo 1 [⟨.error ⟨-1, "other"⟩, .ok .null⟩] = (.error (.cdp ⟨-1, "other"⟩), [1])
  ∧ evalIframeGo 1 [⟨.error ⟨-32000, "stale"⟩, .error ⟨7, "down"⟩⟩,
      ⟨.ok (.bool true), .ok .null⟩] = (.ok (.bool true), [1, 1]) :=
  ⟨c3_evalIframe_staleContext.1 1
      ⟨.error ⟨-32000, "stale"⟩, .ok (.obj [("executionContextId", .num 9)])⟩
      [⟨.ok (.str "v"), .ok .null⟩] ⟨-32000, "stale"⟩ 9 rfl rfl rfl,
   c3_evalIframe_staleContext.2.1 1 ⟨.error ⟨-1, "other"⟩, .ok .null⟩ []
      ⟨-1, "other"⟩ rfl (by decide),
   c3_evalIframe_staleContext.2.2 1 ⟨.error ⟨-32000, "stale"⟩, .error ⟨7, "down"⟩⟩
      [⟨.ok (.bool true), .ok .null⟩] ⟨-32000, "stale"⟩ ⟨7, "down"⟩ rfl rfl rfl⟩

/-- C6: every request issued by a global evaluation carries the expression
built by applying the function-literal source to the serialized arguments,
`awaitPromise = true` and the caller's `returnByValue`; a non-iframe page
issues exactly one request with no `contextId`; an iframe page's first
request carries the page's current `ContextID`; in value mode a successful,
exception-free result is unwrapped to the inner `result.value` payload. -/
theorem c6_eval_request_shape :
    (∀ (p : Page) (byValue : Bool) (js : String) (args : List String)
        (atts : List IframeAttempt) (directOut : Except CdpError JSON),
      ∀ q ∈ (evalGo p byValue js args atts directOut).2,
        q.expression = SprintFnApply js args ∧ q.awaitPromise = true ∧
        q.returnByValue = byValue)
  ∧ (∀ (p : Page) (byValue : Bool) (js : String) (args : List String)
        (atts : List IframeAttempt) (directOut : Except CdpError JSON),
      p.isIframe = false →
      (evalGo p byValue js args atts directOut).2 =
        [⟨SprintFnApply js args, true, byValue, none⟩])
  ∧ (∀ (p : Page) (byValue : Bool) (js : String) (args : List String)
        (a : IframeAttempt) (rest : List IframeAttempt)
        (directOut : Except CdpError JSON),
      p.isIframe = true →
      ((evalGo p byValue js args (a :: rest) directOut).2).head? =
        some ⟨SprintFnApply js args, true, byValue, some p.ContextID⟩)
  ∧ (∀ res : JSON, (res.getp ["exceptionDetails"]).isSome = false →
      EvalE true (.ok res) = .ok (res.getp ["result", "value"])) := by
  refine ⟨?_, ?_, ?_, ?_⟩
  · intro p byValue js args atts directOut q hq
    by_cases hif : p.isIframe
    · simp only [evalGo, hif, if_pos, List.mem_map] at hq
      obtain ⟨cid, _, rfl⟩ := hq
      exact ⟨rfl, rfl, rfl⟩
    · cases directOut with
      | ok v =>
        simp only [evalGo, hif, Bool.false_eq_true, if_false, List.mem_singleton] at hq
        subst hq; exact ⟨rfl, rfl, rfl⟩
      | error e =>
        simp only [evalGo, hif, Bool.false_eq_true, if_false, List.mem_singleton] at hq
        subst hq; exact ⟨rfl, rfl, rfl⟩
  · intro p byValue js args atts directOut hif
    cases directOut with
    | ok v => simp [evalGo, hif]
    | error e => simp [evalGo, hif]
  · intro p byValue js args a rest directOut hif
    simp [evalGo, hif, List.head?_map, evalIframeGo_trace_head]
  · intro res h
    simp [EvalE, h]

/-- A root (non-iframe) page. -/
def rootPage : Page := ⟨0, "t1", "s1", 0, "", none⟩

/-- An iframe page with context id `5`. -/
def framePage : Page := ⟨0, "t1", "s1", 5, "f1", none⟩

/-- Witness for C6 at concrete inputs. -/
theorem c6_eval_request_shape_witness :
    ((⟨SprintFnApply "f" ["1"], true, true, none⟩ : Request).expression =
        SprintFnApply "f" ["1"] ∧
      (⟨SprintFnApply "f" ["1"], true, true, none⟩ : Request).awaitPromise = true ∧
      (⟨SprintFnApply "f" ["1"], true, true, none⟩ : Request).returnByValue = true)
  ∧ (evalGo rootPage true "f" ["1"] [] (.ok numRes)).2 =
      [⟨SprintFnApply "f" ["1"], true, true, none⟩]
  ∧ ((evalGo framePage false "g" [] [⟨.ok nodeRes, .ok .null⟩] (.ok numRes)).2).head? =
      some ⟨SprintFnApply "g" [], true, false, some 5⟩
  ∧ EvalE true (.ok numRes) = .ok (some (.num 42)) :=
  ⟨c6_eval_request_shape.1 rootPage true "f" ["1"] [] (.ok numRes)
      ⟨SprintFnApply "f" ["1"], true, true, none⟩ (by
        rw [c6_eval_request_shape.2.1 rootPage true "f" ["1"] [] (.ok numRes) rfl]
        exact List.mem_singleton.mpr rfl),
   c6_eval_request_shape.2.1 rootPage true "f" ["1"] [] (.ok numRes) rfl,
   c6_eval_request_shape.2.2.1 framePage false "g" [] ⟨.ok nodeRes, .ok .null⟩ []
      (.ok numRes) rfl,
   c6_eval_request_shape.2.2.2 numRes rfl⟩

/-- The outcomes of the individual steps of one `GetDownloadFileE`
invocation: `Page.setDownloadBehavior`, `Fetch.enable`, the
`Fetch.requestPaused` wait, the out-of-band HTTP replay (response, then
body), `Fetch.fulfillRequest`, and the deferred `Fetch.disable`. -/
structure DownloadOutcome where
  setDownloadOut : Except CdpError JSON
  enableOut : Except CdpError JSON
  waitPausedOut : Except RodError JSON
  httpRespOut : Except RodError (Int × List (String × String))
  httpBodyOut : Except RodError (List Nat)
  fulfillOut : Except CdpError JSON
  disableOut : Except CdpError JSON

/-- The value `GetDownloadFileE` returns to its caller: the response headers,
the body, and the error slot (the Go function returns all three positions
together; on the fulfillment path the headers and body are returned even
alongside a fulfillment error). -/
structure DLResult where
  header : Option (List (String × String))
  body : Option (List Nat)
  err : Option RodError

/-- `GetDownloadFileE` (src/page.go:288-359).  The `Fetch.disable` call is
registered as a deferred call only after `Fetch.enable` succeeds, so it runs
exactly once on every exit path from that point on and not at all when
`Page.setDownloadBehavior` or `Fetch.enable` fails.  The deferred call
assigns its error to the local variable `err` after the (unnamed) return
values have already been evaluated, so its outcome never reaches the caller.
The second component counts the `Fetch.disable` calls issued. -/
def GetDownloadFileE (o : DownloadOutcome) : DLResult × Nat :=
  match o.setDownloadOut with
  | .error e => (⟨none, none, some (.cdp e)⟩, 0)
  | .ok _ =>
    match o.enableOut with
    | .error e => (⟨none, none, some (.cdp e)⟩, 0)
    | .ok _ =>
      let ret : DLResult :=
        match o.waitPausedOut with
        | .error e => ⟨none, none, some e⟩
        | .ok _ =>
          match o.httpRespOut with
          | .error e => ⟨none, none, some e⟩
          | .ok res =>
            match o.httpBodyOut with
            | .error e => ⟨none, none, some e⟩
            | .ok body =>
              match o.fulfillOut with
              | .error e => ⟨some res.2, some body, some (.cdp e)⟩
              | .ok _ => ⟨some res.2, some body, none⟩
      (ret, 1)

/-- A download-capture invocation whose `Fetch.enable` call fails. -/
def dlEnableFail : DownloadOutcome :=
  ⟨.ok .null, .error ⟨-2, "enable denied"⟩, .ok .null, .ok (200, []), .ok [],
    .ok .null, .ok .null⟩

/-- C4 counterexample: an invocation of the download-capture workflow in
which `Fetch.enable` fails issues zero `Fetch.disable` calls, not exactly
one — the claim's "for every invocation" quantifier fails. -/
theorem c4_noDisable_when_enableFails :
    (GetDownloadFileE dlEnableFail).2 = 0 ∧ (0 : Nat) ≠ 1 :=
  ⟨rfl, by decide⟩

/-- C4 (amended): once `Page.setDownloadBehavior` and `Fetch.enable` have
succeeded, `Fetch.disable` is issued exactly once on the way out — including
when the paused-request wait fails or the fulfillment call fails; when
`Page.setDownloadBehavior` or `Fetch.enable` itself fails, that error is
returned and no disable call is issued; and the outcome of the disable call
never affects the returned result. -/
theorem c4_download_disable_once :
    (∀ (o : DownloadOutcome) (s e : JSON),
      o.setDownloadOut = .ok s → o.enableOut = .ok e →
      (GetDownloadFileE o).2 = 1)
  ∧ (∀ (o : DownloadOutcome) (e : CdpError),
      o.setDownloadOut = .error e →
      GetDownloadFileE o = (⟨none, none, some (.cdp e)⟩, 0))
  ∧ (∀ (o : DownloadOutcome) (s : JSON) (e : CdpError),
      o.setDownloadOut = .ok s → o.enableOut = .error e →
      GetDownloadFileE o = (⟨none, none, some (.cdp e)⟩, 0))
  ∧ (∀ (o : DownloadOutcome) (d : Except CdpError JSON),
      GetDownloadFileE {o with disableOut := d} = GetDownloadFileE o) := by
  refine ⟨?_, ?_, ?_, ?_⟩
  · intro o s e hs he
    simp [GetDownloadFileE, hs, he]
  · intro o e hs
    simp [GetDownloadFileE, hs]
  · intro o s e hs he
    simp [GetDownloadFileE, hs, he]
  · intro o d
    cases o
    rfl

/-- A download-capture invocation whose paused-request wait is cancelled and
whose deferred `Fetch.disable` itself fails. -/
def dlWaitFail : DownloadOutcome :=
  ⟨.ok .null, .ok .null, .error .cancelled, .ok (200, [("A", "b")]), .ok [1, 2],
    .ok .null, .error ⟨9, "disable failed"⟩⟩

/-- A download-capture invocation whose `Page.setDownloadBehavior` fails. -/
def dlSetFail : DownloadOutcome :=
  ⟨.error ⟨5, "denied"⟩, .ok .null, .ok .null, .ok (200, []), .ok [], .ok .null,
    .ok .null⟩

/-- Witness for the amended C4 at concrete inputs. -/
theorem c4_download_disable_once_witness :
    (GetDownloadFileE dlWaitFail).2 = 1
  ∧ GetDownloadFileE dlSetFail = (⟨none, none, some (.cdp ⟨5, "denied"⟩)⟩, 0)
  ∧ GetDownloadFileE {dlWaitFail with disableOut := .ok .null} =
      GetDownloadFileE dlWaitFail :=
  ⟨c4_download_disable_once.1 dlWaitFail .null .null rfl rfl,
   c4_download_disable_once.2.1 dlSetFail ⟨5, "denied"⟩ rfl,
   c4_download_disable_once.2.2.2 dlWaitFail (.ok .null)⟩

/-- The protocol calls `initSession`/`SetViewportE` issue, in order. -/
inductive SessionCall where
  | attachToTarget (targetId : String) (flatten : Bool)
  | pageEnable
  | setDeviceMetricsOverride
deriving DecidableEq

/-- `SetViewportE` (src/page.go:74-80), given the outcome of the
`Emulation.setDeviceMetricsOverride` call: a `nil` parameter object is a
no-op that issues no call at all. -/
def SetViewportE (vp : Option JSON) (out : Except CdpError JSON) :
    Except CdpError Unit × List SessionCall :=
  match vp with
  | none => (.ok (), [])
  | some _ =>
    match out with
    | .ok _ => (.ok (), [.setDeviceMetricsOverride])
    | .error e => (.error e, [.setDeviceMetricsOverride])

/-- The outcomes of the calls `initSession` may issue. -/
structure InitSessionOutcome where
  attachOut : Except CdpError JSON
  enableOut : Except CdpError JSON
  viewportOut : Except CdpError JSON

/-- `initSession` (src/page.go:545-559): issue `Target.attachToTarget` with
`flatten: true`; on success store the returned `sessionId` as the page's
`SessionID`; then issue `Page.enable`; then apply the browser's configured
viewport via `SetViewportE`.  A later failure does not roll back the stored
`SessionID`.  Returns the outcome, the ordered call trace, and the resulting
page value. -/
def initSessionGo (p : Page) (vp : Option JSON) (o : InitSessionOutcome) :
    Except CdpError Unit × List SessionCall × Page :=
  match o.attachOut with
  | .error e => (.error e, [.attachToTarget p.TargetID true], p)
  | .ok obj =>
    let p1 : Page := { p with SessionID := jstr (obj.get1 "sessionId") }
    match o.enableOut with
    | .error e => (.error e, [.attachToTarget p.TargetID true, .pageEnable], p1)
    | .ok _ =>
      let sv := SetViewportE vp o.viewportOut
      (sv.1, [.attachToTarget p.TargetID true, .pageEnable] ++ sv.2, p1)

/-- C7: `initSession` first issues attach-to-target in flattened session
mode; on attach success the returned session identifier is stored as the
page's `SessionID` (also when a later step fails — no rollback); with a
configured viewport the calls are attach, then `Page.enable`, then the
viewport override, in that order; a `nil` viewport configuration issues no
viewport call. -/
theorem c7_initSession_sequence :
    (∀ (p : Page) (vp : Option JSON) (o : InitSessionOutcome),
      (initSessionGo p vp o).2.1.head? = some (.attachToTarget p.TargetID true))
  ∧ (∀ (p : Page) (vp : Option JSON) (o : InitSessionOutcome) (obj : JSON),
      o.attachOut = .ok obj →
      ((initSessionGo p vp o).2.2).SessionID = jstr (obj.get1 "sessionId"))
  ∧ (∀ (p : Page) (o : InitSessionOutcome) (obj params v : JSON),
      o.attachOut = .ok obj → o.enableOut = .ok v →
      (initSessionGo p (some params) o).2.1 =
        [.attachToTarget p.TargetID true, .pageEnable, .setDeviceMetricsOverride])
  ∧ (∀ (p : Page) (o : InitSessionOutcome) (obj v : JSON),
      o.attachOut = .ok obj → o.enableOut = .ok v →
      initSessionGo p none o =
        (.ok (), [.attachToTarget p.TargetID true, .pageEnable],
          { p with SessionID := jstr (obj.get1 "sessionId") }))
  ∧ (∀ (p : Page) (vp : Option JSON) (o : InitSessionOutcome) (obj : JSON)
        (e : CdpError),
      o.attachOut = .ok obj → o.enableOut = .error e →
      initSessionGo p vp o =
        (.error e, [.attachToTarget p.TargetID true, .pageEnable],
          { p with SessionID := jstr (obj.get1 "sessionId") })) := by
  refine ⟨?_, ?_, ?_, ?_, ?_⟩
  · intro p vp o
    cases hA : o.attachOut with
    | error e => simp [initSessionGo, hA]
    | ok obj =>
      cases hE : o.enableOut with
      | error e => simp [initSessionGo, hA, hE]
      | ok v =>
        cases vp with
        | none => simp [initSessionGo, hA, hE, SetViewportE]
        | some params =>
          cases hV : o.viewportOut with
          | ok w => simp [initSessionGo, hA, hE, hV, SetViewportE]
          | error e => simp [initSessionGo, hA, hE, hV, SetViewportE]
  · intro p vp o obj hA
    cases hE : o.enableOut with
    | error e => simp [initSessionGo, hA, hE]
    | ok v =>
      cases vp with
      | none => simp [initSessionGo, hA, hE, SetViewportE]
      | some params =>
        cases hV : o.viewportOut with
        | ok w => simp [initSessionGo, hA, hE, hV, SetViewportE]
        | error e => simp [initSessionGo, hA, hE, hV, SetViewportE]
  · intro p o obj params v hA hE
    cases hV : o.viewportOut with
    | ok w => simp [initSessionGo, hA, hE, hV, SetViewportE]
    | error e => simp [initSessionGo, hA, hE, hV, SetViewportE]
  · intro p o obj v hA hE
    simp [initSessionGo, hA, hE, SetViewportE]
  · intro p vp o obj e hA hE
    simp [initSessionGo, hA, hE]

/-- An attach outcome returning session identifier `"sess9"`. -/
def attachOk : Except CdpError JSON := .ok (.obj [("sessionId", .str "sess9")])

/-- Witness for C7 at concrete inputs: happy paths with and without a
viewport, and a failed `Page.enable` leaving the stored `SessionID` in
place. -/
theorem c7_initSession_sequence_witness :
    (initSessionGo rootPage none ⟨attachOk, .ok .null, .ok .null⟩).2.1.head? =
      some (.attachToTarget "t1" true)
  ∧ (initSessionGo rootPage (some (.obj [])) ⟨attachOk, .ok .null, .ok .null⟩).2.1 =
      [.attachToTarget "t1" true, .pageEnable, .setDeviceMetricsOverride]
  ∧ initSessionGo rootPage none ⟨attachOk, .ok .null, .ok .null⟩ =
      (.ok (), [.attachToTarget "t1" true, .pageEnable],
        { rootPage with SessionID := "sess9" })
  ∧ initSessionGo rootPage none ⟨attachOk, .error ⟨3, "enable failed"⟩, .ok .null⟩ =
      (.error ⟨3, "enable failed"⟩, [.attachToTarget "t1" true, .pageEnable],
        { rootPage with SessionID := "sess9" }) :=
  ⟨c7_initSession_sequence.1 rootPage none ⟨attachOk, .ok .null, .ok .null⟩,
   c7_initSession_sequence.2.2.1 rootPage ⟨attachOk, .ok .null, .ok .null⟩
      (.obj [("sessionId", .str "sess9")]) (.obj []) .null rfl rfl,
   c7_initSession_sequence.2.2.2.1 rootPage ⟨attachOk, .ok .null, .ok .null⟩
      (.obj [("sessionId", .str "sess9")]) .null rfl rfl,
   c7_initSession_sequence.2.2.2.2 rootPage none
      ⟨attachOk, .error ⟨3, "enable failed"⟩, .ok .null⟩
      (.obj [("sessionId", .str "sess9")]) ⟨3, "enable failed"⟩ rfl rfl⟩

/-- The backoff start of the page's default sleeper
(`kit.BackoffSleeper(30*time.Millisecond, 3*time.Second, nil)`), in
milliseconds. -/
def sleeperBackoffInitMs : Nat := 30

/-- The backoff ceiling of the page's default sleeper, in milliseconds. -/
def sleeperBackoffMaxMs : Nat := 3000

/-- The backoff algorithm/jitter argument of the page's default sleeper:
`nil` (none configured). -/
def sleeperBackoffAlgorithm : Option (Nat → Nat) := none

/-- `strings.HasPrefix(s, px)`, on the character sequences of the strings. -/
def hasPrefixGo (s px : String) : Bool :=
  px.data.isPrefixOf s.data

/-- The event filter of `Sleeper` (src/page.go:141-147): accept a protocol
message iff its method name has prefix `"Page"` or prefix `"DOM"`
(`strings.HasPrefix`). -/
def sleeperEventFilter (method : String) : Bool :=
  if hasPrefixGo method "Page" || hasPrefixGo method "DOM" then true else false

/-- C8: the page's default sleeper backs off exponentially from 30ms with a
3s cap and no configured jitter, and its event filter accepts exactly the
protocol messages whose method name has prefix `"Page"` or prefix `"DOM"`
(every such method accepted, every other rejected). -/
theorem c8_sleeper_defaults :
    (sleeperBackoffInitMs = 30 ∧ sleeperBackoffMaxMs = 3000 ∧
      sleeperBackoffAlgorithm = none)
  ∧ (∀ m : String, sleeperEventFilter m = true ↔
      ("Page".data <+: m.data ∨ "DOM".data <+: m.data)) := by
  refine ⟨⟨rfl, rfl, rfl⟩, ?_⟩
  intro m
  simp [sleeperEventFilter, hasPrefixGo, List.isPrefixOf_iff_prefix]

/-- Witness for C8 at concrete method names: a `Page`-prefixed and a
`DOM`-prefixed method are accepted, another method is rejected. -/
theorem c8_sleeper_defaults_witness :
    sleeperEventFilter "Page.loadEventFired" = true
  ∧ sleeperEventFilter "DOM.attributeModified" = true
  ∧ sleeperEventFilter "Network.requestWillBeSent" ≠ true :=
  ⟨(c8_sleeper_defaults.2 "Page.loadEventFired").mpr (Or.inl (by decide)),
   (c8_sleeper_defaults.2 "DOM.attributeModified").mpr (Or.inr (by decide)),
   fun h => by
     rcases (c8_sleeper_defaults.2 "Network.requestWillBeSent").mp h with h1 | h1 <;>
       exact absurd h1 (by decide)⟩

/-- `Ctx` (src/page.go:38-42): copy the page value and override its context;
the receiver is untouched.  The first component is the receiver's state after
the call, the second the returned page. -/
def Page.Ctx (p : Page) (c : Nat) : Page × Page :=
  (p, { p with ctx := c })

/-- `Timeout` (src/page.go:45-49): derive a fresh context with a cancel
function, store the cancel function on the RECEIVER (`p.timeoutCancel =
cancel` happens before the copy), then return the `Ctx` copy carrying the
fresh context.  The first component is the receiver's state after the call,
the second the returned page. -/
def Page.Timeout (p : Page) (newCtx cancelId : Nat) : Page × Page :=
  let p1 : Page := { p with timeoutCancel := some cancelId }
  (p1, { p1 with ctx := newCtx })

/-- A sample page with no stored timeout cancel function. -/
def samplePage : Page := ⟨2, "t0", "s0", 3, "", none⟩

/-- C9 counterexample: `Timeout` does not leave every field of the original
`Page` value unchanged — it stores the new cancel function in the receiver's
`timeoutCancel` field before copying. -/
theorem c9_timeout_mutates_receiver :
    (Page.Timeout samplePage 5 9).1 ≠ samplePage
  ∧ (Page.Timeout samplePage 5 9).1.timeoutCancel = some 9
  ∧ samplePage.timeoutCancel = none := by
  decide

/-- C9 (amended): `Ctx` returns a new page sharing `TargetID`, `SessionID`,
`ContextID` and `FrameID` under the supplied context and leaves the original
unchanged; `Timeout` returns a new page sharing those identifiers under the
fresh (distinct) context, but stores the new cancel function on the original,
changing exactly its `timeoutCancel` field. -/
theorem c9_chained_config :
    (∀ (p : Page) (c : Nat),
      (Page.Ctx p c).1 = p ∧ (Page.Ctx p c).2 = { p with ctx := c })
  ∧ (∀ (p : Page) (n cid : Nat),
      (Page.Timeout p n cid).2.TargetID = p.TargetID ∧
      (Page.Timeout p n cid).2.SessionID = p.SessionID ∧
      (Page.Timeout p n cid).2.ContextID = p.ContextID ∧
      (Page.Timeout p n cid).2.FrameID = p.FrameID ∧
      (Page.Timeout p n cid).2.ctx = n ∧
      (Page.Timeout p n cid).1 = { p with timeoutCancel := some cid })
  ∧ (∀ (p : Page) (n cid : Nat),
      n ≠ p.ctx → (Page.Timeout p n cid).2.ctx ≠ p.ctx) :=
  ⟨fun _ _ => ⟨rfl, rfl⟩,
   fun _ _ _ => ⟨rfl, rfl, rfl, rfl, rfl, rfl⟩,
   fun _ _ _ h => h⟩

/-- Witness for the amended C9 at a concrete page. -/
theorem c9_chained_config_witness :
    ((Page.Ctx samplePage 7).1 = samplePage ∧
      (Page.Ctx samplePage 7).2 = { samplePage with ctx := 7 })
  ∧ (Page.Timeout samplePage 5 9).2.ctx = 5
  ∧ (Page.Timeout samplePage 5 9).1 = { samplePage with timeoutCancel := some 9 }
  ∧ (Page.Timeout samplePage 5 9).2.ctx ≠ samplePage.ctx :=
  ⟨c9_chained_config.1 samplePage 7,
   (c9_chained_config.2.1 samplePage 5 9).2.2.2.2.1,
   (c9_chained_config.2.1 samplePage 5 9).2.2.2.2.2,
   c9_chained_config.2.2 samplePage 5 9 (by decide)⟩

end Rod
